import Mathlib

/-!
Verification of the slasher repository's slash-proposal core: the
`SlashProposal` record and its time/completion gates
(`src/resolver_core/src/slash_proposal.rs`), the PDA derivation and the
`load` account validation, the instruction dispatcher
(`src/resolver_program/src/lib.rs`), and the Solend lending adapter's
zero-amount short-circuit
(`src/programs/the-dao-vault/src/adapters/solend.rs`).

Machine integers (`u64`, `u8`) are modelled as `Nat`; none of the verified
functions perform arithmetic, so no overflow reduction is needed.
`PodU64` is a byte-aligned wrapper whose `From`/`Into` conversions are
value-preserving, so `PodU64` fields are modelled directly as the carried
`Nat` value and the Rust accessors coincide with the Lean projections.
-/

/-- A 32-byte public key, modelled as its byte list (`solana_program::pubkey::Pubkey`). -/
structure Pubkey where
  bytes : List Nat
deriving DecidableEq, Repr

/-- The error variants of `resolver_sdk::error::ResolverError` used by the
slash-proposal checks. -/
inductive ResolverError where
  | SlashProposalVetoPeriodEnded
  | SlashProposalVetoPeriodNotEnded
  | SlashProposalCompleted
deriving DecidableEq, Repr

/-- The `solana_program::program_error::ProgramError` variants used by the
verified code. `BorshIoError` stands for the deserialization failure raised
by `try_from_slice`. -/
inductive ProgramError where
  | IncorrectProgramId
  | InvalidAccountOwner
  | InvalidAccountData
  | BorshIoError
  | Custom (code : Nat)
deriving DecidableEq, Repr

/-- The `SlashProposal` record (`slash_proposal.rs`, lines 11-31).
`amount` and `veto_deadline_slot` are private `PodU64` fields read through
accessors; `completed` is the raw `u8` byte. -/
structure SlashProposal where
  operator : Pubkey
  resolver : Pubkey
  amount : Nat
  capture_slot : Nat
  veto_deadline_slot : Nat
  completed : Nat
  bump : Nat
deriving DecidableEq, Repr

/-- `impl Discriminator for SlashProposal`: the leading type-tag byte. -/
def SlashProposal.DISCRIMINATOR : Nat := 1

/-- `SlashProposal::new` (lines 53-71): stores the given fields, with
`completed = 0`. -/
def SlashProposal.new (operator resolver : Pubkey)
    (amount capture_slot veto_deadline_slot bump : Nat) : SlashProposal :=
  { operator := operator
    resolver := resolver
    amount := amount
    capture_slot := capture_slot
    veto_deadline_slot := veto_deadline_slot
    completed := 0
    bump := bump }

/-- `SlashProposal::check_veto_period_ended` (lines 81-88): errors with
`SlashProposalVetoPeriodEnded` when `veto_deadline_slot <= current_slot`,
otherwise `Ok(())`. -/
def SlashProposal.check_veto_period_ended (p : SlashProposal)
    (current_slot : Nat) : Except ResolverError Unit :=
  if p.veto_deadline_slot ≤ current_slot then
    Except.error ResolverError.SlashProposalVetoPeriodEnded
  else
    Except.ok ()

/-- `SlashProposal::check_veto_period_not_ended` (lines 90-97): errors with
`SlashProposalVetoPeriodNotEnded` when `veto_deadline_slot > current_slot`,
otherwise `Ok(())`. -/
def SlashProposal.check_veto_period_not_ended (p : SlashProposal)
    (current_slot : Nat) : Except ResolverError Unit :=
  if p.veto_deadline_slot > current_slot then
    Except.error ResolverError.SlashProposalVetoPeriodNotEnded
  else
    Except.ok ()

/-- `SlashProposal::check_completed` (lines 99-106): errors with
`SlashProposalCompleted` when the `completed` byte equals `1`, otherwise
`Ok(())`. -/
def SlashProposal.check_completed (p : SlashProposal) : Except ResolverError Unit :=
  if p.completed = 1 then
    Except.error ResolverError.SlashProposalCompleted
  else
    Except.ok ()

/-- A concrete proposal used as test input: veto deadline at slot 5,
not completed. -/
def sampleProposal : SlashProposal :=
  SlashProposal.new ⟨[7]⟩ ⟨[8]⟩ 100 0 5 0

/-- The sample proposal with its completed byte set to 2 (neither the
false value 0 nor the true value 1). -/
def sampleProposalCompleted2 : SlashProposal :=
  { sampleProposal with completed := 2 }

/-- `SlashProposal::seeds` (lines 108-115): the fixed tag `slash_proposal`
followed by the ncn, operator and resolver key bytes. -/
def SlashProposal.seeds (ncn operator resolver : Pubkey) : List (List Nat) :=
  ["slash_proposal".data.map Char.toNat, ncn.bytes, operator.bytes, resolver.bytes]

/-- Modelled from the spec: `Pubkey::find_program_address` from the
`solana_program` crate, which is not part of this repository. Per the spec
it is the platform's pure, deterministic seed-based derivation
`derive(tag, key_tuple) -> (address, disambiguator)`: a one-way function of
the seeds and the program id, with a disambiguation byte chosen so that no
matching signing key exists. The hash itself is abstracted; only purity and
determinism of the derivation are relied on. -/
def findProgramAddressRaw (seeds : List (List Nat)) (program_id : Pubkey) :
    Pubkey × Nat :=
  (⟨(seeds.map fun s => s.length :: s).flatten ++ program_id.bytes⟩, 255)

/-- `SlashProposal::find_program_address` (lines 117-127): derives the PDA
from the seeds and returns `(pda, bump, seeds)`. -/
def SlashProposal.find_program_address (program_id ncn operator resolver : Pubkey) :
    Pubkey × Nat × List (List Nat) :=
  let seeds := SlashProposal.seeds ncn operator resolver
  let pb := findProgramAddressRaw seeds program_id
  (pb.1, pb.2, seeds)

/-- The caller-visible fields of `solana_program::account_info::AccountInfo`
used by `SlashProposal::load`: address, owning program, raw account data and
the writable flag. -/
structure AccountInfo where
  key : Pubkey
  owner : Pubkey
  data : List Nat
  is_writable : Bool
deriving DecidableEq, Repr

/-- `SlashProposal::load` (lines 139-171): rejects, in order, a wrong owner,
empty data, a non-writable account when `expect_writable`, a wrong leading
discriminator byte, and an address differing from the derived PDA; accepts
otherwise. -/
def SlashProposal.load (program_id : Pubkey)
    (slash_proposal ncn operator resolver : AccountInfo)
    (expect_writable : Bool) : Except ProgramError Unit :=
  if slash_proposal.owner ≠ program_id then
    Except.error ProgramError.InvalidAccountOwner
  else if slash_proposal.data = [] then
    Except.error ProgramError.InvalidAccountData
  else if expect_writable = true ∧ slash_proposal.is_writable = false then
    Except.error ProgramError.InvalidAccountData
  else if slash_proposal.data.headD 0 ≠ SlashProposal.DISCRIMINATOR then
    Except.error ProgramError.InvalidAccountData
  else if slash_proposal.key ≠
      (SlashProposal.find_program_address program_id ncn.key operator.key
        resolver.key).1 then
    Except.error ProgramError.InvalidAccountData
  else
    Except.ok ()

/-- The program identity declared by `declare_id!` in
`resolver_program/src/lib.rs`, modelled as the declared base58 text's bytes;
only its role as a distinguished constant key is used. -/
def declaredId : Pubkey :=
  ⟨"AE7fSUJSGxMzjNxSPpNTemrz9cr26RFue4GwoJ1cuR6f".data.map Char.toNat⟩

/-- The closed set of operation variants matched by `process_instruction`
(`resolver_program/src/lib.rs`, lines 50-118). Payload field types follow
the spec's command table: tick-counts and amounts are `u64`, the secondary
admin role is a one-byte enum tag. -/
inductive ResolverInstruction where
  | InitializeConfig
  | InitializeNcnResolverProgramConfig (veto_duration delete_slash_proposal_duration : Nat)
  | InitializeResolver
  | InitializeSlasher
  | ProposeSlash (slash_amount : Nat)
  | SetResolver
  | VetoSlash
  | ExecuteSlash
  | SlasherDelegateTokenAccount
  | SlasherSetAdmin
  | SlasherSetSecondaryAdmin (role : Nat)
  | DeleteSlashProposal
deriving DecidableEq, Repr

/-- Reads a Borsh little-endian `u64`: eight bytes, least significant first. -/
def readU64LE : List Nat → Option (Nat × List Nat)
  | b0 :: b1 :: b2 :: b3 :: b4 :: b5 :: b6 :: b7 :: rest =>
    some (b0 + 256 * b1 + 256 ^ 2 * b2 + 256 ^ 3 * b3 + 256 ^ 4 * b4 +
      256 ^ 5 * b5 + 256 ^ 6 * b6 + 256 ^ 7 * b7, rest)
  | _ => none

/-- Modelled from the spec: `ResolverInstruction::try_from_slice`, Borsh
deserialization from the `resolver_sdk` crate, which is not part of this
repository. A leading tag byte selects the variant in declaration order,
`u64` payload fields follow as eight little-endian bytes, the role as one
byte, and the whole input must be consumed; any unknown tag or undecodable
payload fails. -/
def tryFromSlice : List Nat → Except ProgramError ResolverInstruction
  | [0] => Except.ok ResolverInstruction.InitializeConfig
  | 1 :: rest =>
    match readU64LE rest with
    | some (v, rest1) =>
      match readU64LE rest1 with
      | some (d, []) =>
        Except.ok (ResolverInstruction.InitializeNcnResolverProgramConfig v d)
      | _ => Except.error ProgramError.BorshIoError
    | none => Except.error ProgramError.BorshIoError
  | [2] => Except.ok ResolverInstruction.InitializeResolver
  | [3] => Except.ok ResolverInstruction.InitializeSlasher
  | 4 :: rest =>
    match readU64LE rest with
    | some (a, []) => Except.ok (ResolverInstruction.ProposeSlash a)
    | _ => Except.error ProgramError.BorshIoError
  | [5] => Except.ok ResolverInstruction.SetResolver
  | [6] => Except.ok ResolverInstruction.VetoSlash
  | [7] => Except.ok ResolverInstruction.ExecuteSlash
  | [8] => Except.ok ResolverInstruction.SlasherDelegateTokenAccount
  | [9] => Except.ok ResolverInstruction.SlasherSetAdmin
  | [10, role] => Except.ok (ResolverInstruction.SlasherSetSecondaryAdmin role)
  | [11] => Except.ok ResolverInstruction.DeleteSlashProposal
  | _ => Except.error ProgramError.BorshIoError

/-- The per-variant handlers invoked by `process_instruction`. Their bodies
live in modules of this repository that are not in the source sample, so the
dispatcher is verified for every possible assignment of handler behaviour. -/
structure Handlers where
  processInitializeConfig : Pubkey → List AccountInfo → Except ProgramError Unit
  processInitializeResolverProgramConfig :
    Pubkey → List AccountInfo → Nat → Nat → Except ProgramError Unit
  processInitializeResolver : Pubkey → List AccountInfo → Except ProgramError Unit
  processInitializeSlasher : Pubkey → List AccountInfo → Except ProgramError Unit
  processProposeSlash : Pubkey → List AccountInfo → Nat → Except ProgramError Unit
  processSetResolver : Pubkey → List AccountInfo → Except ProgramError Unit
  processVetoSlash : Pubkey → List AccountInfo → Except ProgramError Unit
  processExecuteSlash : Pubkey → List AccountInfo → Except ProgramError Unit
  processSlasherDelegateTokenAccount :
    Pubkey → List AccountInfo → Except ProgramError Unit
  processSlasherSetAdmin : Pubkey → List AccountInfo → Except ProgramError Unit
  processSlasherSetSecondaryAdmin :
    Pubkey → List AccountInfo → Nat → Except ProgramError Unit
  processDeleteSlashProposal : Pubkey → List AccountInfo → Except ProgramError Unit

/-- `process_instruction` (`resolver_program/src/lib.rs`, lines 39-121):
rejects a wrong program id, then decodes the instruction and routes to the
matching handler; each handler's error is propagated by `?` and a successful
handler yields `Ok(())`, so the handler's `Result<(), ProgramError>` is
returned unchanged. -/
def process_instruction (h : Handlers) (program_id : Pubkey)
    (accounts : List AccountInfo) (instruction_data : List Nat) :
    Except ProgramError Unit :=
  if program_id ≠ declaredId then
    Except.error ProgramError.IncorrectProgramId
  else
    match tryFromSlice instruction_data with
    | Except.error e => Except.error e
    | Except.ok instruction =>
      match instruction with
      | ResolverInstruction.InitializeConfig =>
        h.processInitializeConfig program_id accounts
      | ResolverInstruction.InitializeNcnResolverProgramConfig v d =>
        h.processInitializeResolverProgramConfig program_id accounts v d
      | ResolverInstruction.InitializeResolver =>
        h.processInitializeResolver program_id accounts
      | ResolverInstruction.InitializeSlasher =>
        h.processInitializeSlasher program_id accounts
      | ResolverInstruction.ProposeSlash a =>
        h.processProposeSlash program_id accounts a
      | ResolverInstruction.SetResolver =>
        h.processSetResolver program_id accounts
      | ResolverInstruction.VetoSlash =>
        h.processVetoSlash program_id accounts
      | ResolverInstruction.ExecuteSlash =>
        h.processExecuteSlash program_id accounts
      | ResolverInstruction.SlasherDelegateTokenAccount =>
        h.processSlasherDelegateTokenAccount program_id accounts
      | ResolverInstruction.SlasherSetAdmin =>
        h.processSlasherSetAdmin program_id accounts
      | ResolverInstruction.SlasherSetSecondaryAdmin role =>
        h.processSlasherSetSecondaryAdmin program_id accounts role
      | ResolverInstruction.DeleteSlashProposal =>
        h.processDeleteSlashProposal program_id accounts

/-- A handler assignment in which every handler succeeds, used as a concrete
instantiation in witnesses. -/
def trivialHandlers : Handlers :=
  { processInitializeConfig := fun _ _ => Except.ok ()
    processInitializeResolverProgramConfig := fun _ _ _ _ => Except.ok ()
    processInitializeResolver := fun _ _ => Except.ok ()
    processInitializeSlasher := fun _ _ => Except.ok ()
    processProposeSlash := fun _ _ _ => Except.ok ()
    processSetResolver := fun _ _ => Except.ok ()
    processVetoSlash := fun _ _ => Except.ok ()
    processExecuteSlash := fun _ _ => Except.ok ()
    processSlasherDelegateTokenAccount := fun _ _ => Except.ok ()
    processSlasherSetAdmin := fun _ _ => Except.ok ()
    processSlasherSetSecondaryAdmin := fun _ _ _ => Except.ok ()
    processDeleteSlashProposal := fun _ _ => Except.ok () }

/-- The token balances of the accounts the Solend adapter can move funds
between; the external lending program is the only thing that changes them. -/
structure VaultBalances where
  vault_reserve_token : Nat
  vault_solend_lp_token : Nat
  solend_reserve_token : Nat
deriving DecidableEq, Repr

/-- `SolendAccounts::deposit` (`solend.rs`, lines 59-84): matches on the
amount — `0` yields `Ok` immediately, any other amount performs the
`deposit_reserve_liquidity` CPI. The external lending program's effect on
the balances is the abstract transformer `cpi` (building the `CpiContext`
beforehand has no effect of its own). -/
def SolendAccounts.deposit {ε : Type}
    (cpi : Nat → VaultBalances → Except ε VaultBalances)
    (st : VaultBalances) (amount : Nat) : Except ε VaultBalances :=
  match amount with
  | 0 => Except.ok st
  | _ => cpi amount st

/-- `SolendAccounts::redeem` (`solend.rs`, lines 86-111): matches on the
amount — `0` yields `Ok` immediately, any other amount performs the
`redeem_reserve_collateral` CPI, abstracted as `cpi`. -/
def SolendAccounts.redeem {ε : Type}
    (cpi : Nat → VaultBalances → Except ε VaultBalances)
    (st : VaultBalances) (amount : Nat) : Except ε VaultBalances :=
  match amount with
  | 0 => Except.ok st
  | _ => cpi amount st

/-- A CPI transformer that always fails, used to witness that the
zero-amount path never reaches the external call. -/
def failingCpi : Nat → VaultBalances → Except ProgramError VaultBalances :=
  fun _ _ => Except.error (ProgramError.Custom 0)

/-- Concrete balances used as test input. -/
def sampleBalances : VaultBalances :=
  { vault_reserve_token := 10, vault_solend_lp_token := 20, solend_reserve_token := 30 }

/-- Concrete keys for the load witness. -/
def samplePid : Pubkey := ⟨[9]⟩

/-- A minimal account standing for the ncn in the load witness. -/
def sampleNcnAccount : AccountInfo :=
  { key := ⟨[1]⟩, owner := samplePid, data := [], is_writable := false }

/-- A minimal account standing for the operator in the load witness. -/
def sampleOperatorAccount : AccountInfo :=
  { key := ⟨[2]⟩, owner := samplePid, data := [], is_writable := false }

/-- A minimal account standing for the resolver in the load witness. -/
def sampleResolverAccount : AccountInfo :=
  { key := ⟨[3]⟩, owner := samplePid, data := [], is_writable := false }

/-- A slash-proposal account satisfying every load check: owned by the
program, non-empty data starting with the discriminator byte, writable, and
stored at the PDA derived from the three sample keys. -/
def sampleProposalAccount : AccountInfo :=
  { key := (SlashProposal.find_program_address samplePid sampleNcnAccount.key
      sampleOperatorAccount.key sampleResolverAccount.key).1
    owner := samplePid
    data := [1, 0, 0]
    is_writable := true }

/-- Claim C1 counterexample: at slot 3, strictly before the veto deadline 5,
`check_veto_period_not_ended` returns the `SlashProposalVetoPeriodNotEnded`
error, not `Ok` as the claim requires. -/
theorem c1_not_ended_counterexample :
    3 < sampleProposal.veto_deadline_slot ∧
    sampleProposal.check_veto_period_not_ended 3 =
      Except.error ResolverError.SlashProposalVetoPeriodNotEnded :=
  ⟨by decide, rfl⟩

/-- Claim C1 (amended): `check_veto_period_not_ended(p, s)` returns `Ok`
exactly when `s >= p.veto_deadline_slot`, and returns the
`SlashProposalVetoPeriodNotEnded` error exactly when
`s < p.veto_deadline_slot` — the reverse of the frozen claim. -/
theorem c1_not_ended_amended (p : SlashProposal) (s : Nat) :
    (p.check_veto_period_not_ended s = Except.ok () ↔ p.veto_deadline_slot ≤ s) ∧
    (p.check_veto_period_not_ended s =
        Except.error ResolverError.SlashProposalVetoPeriodNotEnded ↔
      s < p.veto_deadline_slot) := by
  unfold SlashProposal.check_veto_period_not_ended
  constructor <;> split <;> rename_i h <;> simp_all <;> omega

/-- Claim C2 counterexample: at slot 7, on or after the veto deadline 5,
`check_veto_period_ended` returns the `SlashProposalVetoPeriodEnded` error,
not `Ok` as the claim requires. -/
theorem c2_ended_counterexample :
    sampleProposal.veto_deadline_slot ≤ 7 ∧
    sampleProposal.check_veto_period_ended 7 =
      Except.error ResolverError.SlashProposalVetoPeriodEnded :=
  ⟨by decide, rfl⟩

/-- Claim C2 (amended): `check_veto_period_ended(p, s)` returns `Ok`
exactly when `s < p.veto_deadline_slot`, and returns the
`SlashProposalVetoPeriodEnded` error exactly when
`s >= p.veto_deadline_slot` — the reverse of the frozen claim. -/
theorem c2_ended_amended (p : SlashProposal) (s : Nat) :
    (p.check_veto_period_ended s = Except.ok () ↔ s < p.veto_deadline_slot) ∧
    (p.check_veto_period_ended s =
        Except.error ResolverError.SlashProposalVetoPeriodEnded ↔
      p.veto_deadline_slot ≤ s) := by
  unfold SlashProposal.check_veto_period_ended
  constructor <;> split <;> rename_i h <;> simp_all <;> omega

/-- Claim C3: for every proposal and slot exactly one of the two time gates
returns `Ok`; the gate passing at the boundary `s = veto_deadline_slot` is
`check_veto_period_not_ended`, whose success region is exactly
`veto_deadline_slot <= s`, i.e. the complement of the half-open veto window,
so the boundary slot belongs to the execute (window elapsed) side. -/
theorem c3_gates_partition (p : SlashProposal) (s : Nat) :
    (p.check_veto_period_ended s = Except.ok () ↔
      ¬ p.check_veto_period_not_ended s = Except.ok ()) ∧
    (p.check_veto_period_not_ended s = Except.ok () ↔ p.veto_deadline_slot ≤ s) ∧
    p.check_veto_period_not_ended p.veto_deadline_slot = Except.ok () ∧
    ¬ p.check_veto_period_ended p.veto_deadline_slot = Except.ok () := by
  unfold SlashProposal.check_veto_period_ended SlashProposal.check_veto_period_not_ended
  refine ⟨?_, ?_, ?_, ?_⟩ <;> first
    | (constructor <;> split <;> rename_i h <;> split <;> simp_all <;> omega)
    | (split <;> rename_i h <;> simp_all <;> omega)

/-- Claim C3 witness: at the sample proposal's boundary slot the
not-ended gate passes. -/
theorem c3_gates_partition_witness :
    sampleProposal.check_veto_period_not_ended sampleProposal.veto_deadline_slot =
      Except.ok () :=
  (c3_gates_partition sampleProposal 0).2.2.1

/-- Claim C4: `check_completed` returns `Ok` when the completed byte is the
false value 0, and fails with `SlashProposalCompleted` when it is the true
value 1. -/
theorem c4_check_completed (p : SlashProposal) :
    (p.completed = 0 → p.check_completed = Except.ok ()) ∧
    (p.completed = 1 →
      p.check_completed = Except.error ResolverError.SlashProposalCompleted) := by
  unfold SlashProposal.check_completed
  constructor <;> intro h <;> simp [h]

/-- Claim C4 witness: the sample proposal has completed byte 0 and passes
the gate. -/
theorem c4_check_completed_witness :
    sampleProposal.check_completed = Except.ok () :=
  (c4_check_completed sampleProposal).1 rfl

/-- Claim C9: `check_completed` rejects only the exact byte value 1; any
other completed byte, including nonzero values, passes the gate. -/
theorem c9_check_completed_only_one (p : SlashProposal) (h : p.completed ≠ 1) :
    p.check_completed = Except.ok () := by
  unfold SlashProposal.check_completed
  simp [h]

/-- Claim C9 witness: a proposal whose completed byte is 2 passes the
completed gate. -/
theorem c9_check_completed_only_one_witness :
    sampleProposalCompleted2.check_completed = Except.ok () :=
  c9_check_completed_only_one sampleProposalCompleted2 (by decide)

/-- Claim C8: `SlashProposal::new` stores exactly the given operator,
resolver, amount, capture slot, veto deadline and bump, and starts with
`completed = 0`; the `amount()` and `veto_deadline_slot()` accessors
(identity `PodU64` conversions) return the values passed in. -/
theorem c8_new_fields (operator resolver : Pubkey)
    (amount capture_slot veto_deadline_slot bump : Nat) :
    (SlashProposal.new operator resolver amount capture_slot veto_deadline_slot
        bump).operator = operator ∧
    (SlashProposal.new operator resolver amount capture_slot veto_deadline_slot
        bump).resolver = resolver ∧
    (SlashProposal.new operator resolver amount capture_slot veto_deadline_slot
        bump).capture_slot = capture_slot ∧
    (SlashProposal.new operator resolver amount capture_slot veto_deadline_slot
        bump).bump = bump ∧
    (SlashProposal.new operator resolver amount capture_slot veto_deadline_slot
        bump).completed = 0 ∧
    (SlashProposal.new operator resolver amount capture_slot veto_deadline_slot
        bump).amount = amount ∧
    (SlashProposal.new operator resolver amount capture_slot veto_deadline_slot
        bump).veto_deadline_slot = veto_deadline_slot :=
  ⟨rfl, rfl, rfl, rfl, rfl, rfl, rfl⟩

/-- Claim C5: `SlashProposal::load` accepts exactly when the account's owner
is the program id, its data is non-empty, its leading byte is the
discriminator 1, its address equals the PDA derived from the
(ncn, operator, resolver) triple, and, when writability is expected, the
account is writable; any failing condition yields an error. -/
theorem c5_load_characterization (pid : Pubkey) (sp ncn op res : AccountInfo)
    (w : Bool) :
    SlashProposal.load pid sp ncn op res w = Except.ok () ↔
      (sp.owner = pid ∧ sp.data ≠ [] ∧
        sp.data.headD 0 = SlashProposal.DISCRIMINATOR ∧
        sp.key = (SlashProposal.find_program_address pid ncn.key op.key
          res.key).1 ∧
        (w = true → sp.is_writable = true)) := by
  unfold SlashProposal.load
  split_ifs with h1 h2 h3 h4 h5 <;> simp_all <;> tauto

/-- Claim C5 witness: a concrete account meeting all five conditions is
accepted by load with writability expected. -/
theorem c5_load_characterization_witness :
    SlashProposal.load samplePid sampleProposalAccount sampleNcnAccount
      sampleOperatorAccount sampleResolverAccount true = Except.ok () :=
  (c5_load_characterization samplePid sampleProposalAccount sampleNcnAccount
    sampleOperatorAccount sampleResolverAccount true).mpr
    ⟨rfl, by decide, rfl, rfl, fun _ => rfl⟩

/-- Claim C6: the dispatcher rejects a wrong program id with
`IncorrectProgramId` for every payload and every handler assignment;
with the right program id a failed decode propagates the decode error with
no handler consulted; a successful decode invokes exactly the handler
matching the variant and returns its result unchanged. -/
theorem c6_dispatcher (h : Handlers) (pid : Pubkey) (accounts : List AccountInfo)
    (data : List Nat) :
    (pid ≠ declaredId →
      process_instruction h pid accounts data =
        Except.error ProgramError.IncorrectProgramId) ∧
    (∀ e, tryFromSlice data = Except.error e →
      process_instruction h declaredId accounts data = Except.error e) ∧
    (tryFromSlice data = Except.ok ResolverInstruction.InitializeConfig →
      process_instruction h declaredId accounts data =
        h.processInitializeConfig declaredId accounts) ∧
    (∀ v d, tryFromSlice data =
        Except.ok (ResolverInstruction.InitializeNcnResolverProgramConfig v d) →
      process_instruction h declaredId accounts data =
        h.processInitializeResolverProgramConfig declaredId accounts v d) ∧
    (tryFromSlice data = Except.ok ResolverInstruction.InitializeResolver →
      process_instruction h declaredId accounts data =
        h.processInitializeResolver declaredId accounts) ∧
    (tryFromSlice data = Except.ok ResolverInstruction.InitializeSlasher →
      process_instruction h declaredId accounts data =
        h.processInitializeSlasher declaredId accounts) ∧
    (∀ a, tryFromSlice data = Except.ok (ResolverInstruction.ProposeSlash a) →
      process_instruction h declaredId accounts data =
        h.processProposeSlash declaredId accounts a) ∧
    (tryFromSlice data = Except.ok ResolverInstruction.SetResolver →
      process_instruction h declaredId accounts data =
        h.processSetResolver declaredId accounts) ∧
    (tryFromSlice data = Except.ok ResolverInstruction.VetoSlash →
      process_instruction h declaredId accounts data =
        h.processVetoSlash declaredId accounts) ∧
    (tryFromSlice data = Except.ok ResolverInstruction.ExecuteSlash →
      process_instruction h declaredId accounts data =
        h.processExecuteSlash declaredId accounts) ∧
    (tryFromSlice data = Except.ok ResolverInstruction.SlasherDelegateTokenAccount →
      process_instruction h declaredId accounts data =
        h.processSlasherDelegateTokenAccount declaredId accounts) ∧
    (tryFromSlice data = Except.ok ResolverInstruction.SlasherSetAdmin →
      process_instruction h declaredId accounts data =
        h.processSlasherSetAdmin declaredId accounts) ∧
    (∀ r, tryFromSlice data =
        Except.ok (ResolverInstruction.SlasherSetSecondaryAdmin r) →
      process_instruction h declaredId accounts data =
        h.processSlasherSetSecondaryAdmin declaredId accounts r) ∧
    (tryFromSlice data = Except.ok ResolverInstruction.DeleteSlashProposal →
      process_instruction h declaredId accounts data =
        h.processDeleteSlashProposal declaredId accounts) := by
  refine ⟨?_, ?_, ?_, ?_, ?_, ?_, ?_, ?_, ?_, ?_, ?_, ?_, ?_, ?_⟩ <;>
    first
      | (intro hne
         unfold process_instruction
         rw [if_pos hne])
      | (intro e he
         unfold process_instruction
         rw [if_neg (by simp), he])
      | (intro he
         unfold process_instruction
         rw [if_neg (by simp), he])
      | (intro v d he
         unfold process_instruction
         rw [if_neg (by simp), he])

/-- Claim C6 witness: on an unknown tag byte with the declared id the
dispatcher fails with the decode error, and with a wrong program id it
fails with IncorrectProgramId. -/
theorem c6_dispatcher_witness :
    process_instruction trivialHandlers samplePid [] [] =
      Except.error ProgramError.IncorrectProgramId ∧
    process_instruction trivialHandlers declaredId [] [99] =
      Except.error ProgramError.BorshIoError ∧
    process_instruction trivialHandlers declaredId [] [6] =
      trivialHandlers.processVetoSlash declaredId [] :=
  ⟨(c6_dispatcher trivialHandlers samplePid [] []).1 (by decide),
   (c6_dispatcher trivialHandlers declaredId [] [99]).2.1
     ProgramError.BorshIoError rfl,
   (c6_dispatcher trivialHandlers declaredId [] [6]).2.2.2.2.2.2.2.2.1 rfl⟩

/-- Claim C7: `find_program_address` is deterministic — equal inputs give
equal (address, bump, seeds) triples — and the seeds it returns are exactly
the fixed tag followed by the ncn, operator and resolver key bytes, so the
derived address depends on nothing but the triple and the tag. -/
theorem c7_find_program_address (program_id ncn operator resolver : Pubkey) :
    (∀ r1 r2 : Pubkey × Nat × List (List Nat),
      r1 = SlashProposal.find_program_address program_id ncn operator resolver →
      r2 = SlashProposal.find_program_address program_id ncn operator resolver →
      r1 = r2) ∧
    (SlashProposal.find_program_address program_id ncn operator resolver).2.2 =
      ["slash_proposal".data.map Char.toNat, ncn.bytes, operator.bytes,
        resolver.bytes] := by
  refine ⟨?_, rfl⟩
  intro r1 r2 h1 h2
  rw [h1, h2]

/-- Claim C7 witness: two invocations at the same concrete keys agree, and
the returned seeds at those keys are the tag plus the three key byte lists. -/
theorem c7_find_program_address_witness :
    SlashProposal.find_program_address samplePid ⟨[1]⟩ ⟨[2]⟩ ⟨[3]⟩ =
      SlashProposal.find_program_address samplePid ⟨[1]⟩ ⟨[2]⟩ ⟨[3]⟩ ∧
    (SlashProposal.find_program_address samplePid ⟨[1]⟩ ⟨[2]⟩ ⟨[3]⟩).2.2 =
      ["slash_proposal".data.map Char.toNat, [1], [2], [3]] :=
  ⟨(c7_find_program_address samplePid ⟨[1]⟩ ⟨[2]⟩ ⟨[3]⟩).1
      (SlashProposal.find_program_address samplePid ⟨[1]⟩ ⟨[2]⟩ ⟨[3]⟩)
      (SlashProposal.find_program_address samplePid ⟨[1]⟩ ⟨[2]⟩ ⟨[3]⟩) rfl rfl,
   (c7_find_program_address samplePid ⟨[1]⟩ ⟨[2]⟩ ⟨[3]⟩).2⟩

/-- Claim C10: in the Solend adapter a zero-amount deposit or redeem
succeeds immediately with every balance unchanged and without invoking the
external lending program (the result holds for every behaviour of the CPI),
while a nonzero amount performs exactly the external call. -/
theorem c10_zero_amount_noop {ε : Type}
    (dep red : Nat → VaultBalances → Except ε VaultBalances)
    (st : VaultBalances) :
    SolendAccounts.deposit dep st 0 = Except.ok st ∧
    SolendAccounts.redeem red st 0 = Except.ok st ∧
    (∀ a, a ≠ 0 → SolendAccounts.deposit dep st a = dep a st) ∧
    (∀ a, a ≠ 0 → SolendAccounts.redeem red st a = red a st) := by
  refine ⟨rfl, rfl, ?_, ?_⟩ <;>
    · intro a ha
      match a with
      | 0 => exact absurd rfl ha
      | _ + 1 => rfl

/-- Claim C10 witness: with a CPI that would error, amount 0 still succeeds
leaving the sample balances unchanged, and amount 1 hits the CPI. -/
theorem c10_zero_amount_noop_witness :
    SolendAccounts.deposit failingCpi sampleBalances 0 =
      Except.ok sampleBalances ∧
    SolendAccounts.deposit failingCpi sampleBalances 1 =
      failingCpi 1 sampleBalances :=
  ⟨(c10_zero_amount_noop failingCpi failingCpi sampleBalances).1,
   (c10_zero_amount_noop failingCpi failingCpi sampleBalances).2.2.1 1
     (by decide)⟩
